import Mathlib

/-!
Verification of the poncho packaging tools (cctools) against their
natural-language specification.

The development shallowly embeds the relevant parts of the two programs:

* `poncho_package_create` (python): the import scanner, package resolver,
  spec synthesizer and external-data fetcher;
* `poncho_package_run` (bash): the locked unpack-execute runner.

Each section names the source function it embeds.
-/

namespace PonchoScan

/-- Reduction of monadic bind on an `Except` error, used to push scanner
errors through the accumulation loops. -/
@[simp]
theorem error_bind {ε α β : Type} (e : ε) (f : α → Except ε β) :
    (Except.error e : Except ε α) >>= f = .error e := rfl

/-- Reduction of monadic bind on an `Except` success. -/
@[simp]
theorem ok_bind {ε α β : Type} (a : α) (f : α → Except ε β) :
    (Except.ok a : Except ε α) >>= f = f a := rfl

/-- Python AST statements, restricted to the shapes the import scanner
inspects.  `imp` is `ast.Import` (a list of dotted module names),
`impFrom` is `ast.ImportFrom` (source module plus relative level),
`funcDef` is `ast.FunctionDef` (name and body), and `other` stands for
any other statement, carrying its child statements so that `ast.walk`
can traverse into it. -/
inductive Stmt where
  | imp (names : List String)
  | impFrom (module : String) (level : Nat)
  | funcDef (name : String) (body : List Stmt)
  | other (body : List Stmt)

/-- Embeds `strip_dots` (poncho_package_create, scanner part): raise
ImportError when the name starts with a dot, otherwise return the
component before the first dot (`pkg.split(".")[0]`). -/
def strip_dots (pkg : String) : Except String String :=
  if pkg.startsWith "." then
    .error ("On " ++ pkg ++ ", imports from the current module are not supported")
  else
    .ok ((pkg.splitOn ".").headD "")

/-- Embeds `get_stmt_imports`: a plain import contributes `strip_dots` of
each named module; a from-import with non-zero relative level raises
ImportError; a level-0 from-import contributes `strip_dots` of its source
module; every other statement contributes nothing. -/
def get_stmt_imports (stmt : Stmt) : Except String (List String) :=
  match stmt with
  | .imp names => names.mapM strip_dots
  | .impFrom module level =>
      if level ≠ 0 then
        .error ("On " ++ module ++ ", imports from the current module are not supported")
      else do
        let m ← strip_dots module
        pure [m]
  | _ => .ok []

/-- The child statements of a statement, as `ast.iter_child_nodes`
yields them for the shapes in `Stmt`. -/
def children : Stmt → List Stmt
  | .funcDef _ body => body
  | .other body => body
  | _ => []

/-- Size of one statement, counting nested statements; termination
measure for breadth-first traversal. -/
def stmtSize : Stmt → Nat
  | .imp _ => 1
  | .impFrom _ _ => 1
  | .funcDef _ body => 1 + (body.attach.map (fun x => stmtSize x.1)).sum
  | .other body => 1 + (body.attach.map (fun x => stmtSize x.1)).sum
termination_by s => sizeOf s
decreasing_by
  all_goals
    have h := List.sizeOf_lt_of_mem x.2
    simp only [Stmt.funcDef.sizeOf_spec, Stmt.other.sizeOf_spec]
    omega

theorem attach_map_stmtSize (body : List Stmt) :
    (body.attach.map (fun x => stmtSize x.1)).sum = (body.map stmtSize).sum := by
  rw [List.attach_map_val]

/-- Total size of a queue of statements. -/
def qsize (l : List Stmt) : Nat := (l.map stmtSize).sum

theorem qsize_append (l₁ l₂ : List Stmt) : qsize (l₁ ++ l₂) = qsize l₁ + qsize l₂ := by
  simp [qsize]

theorem qsize_cons (s : Stmt) (rest : List Stmt) :
    qsize (s :: rest) = stmtSize s + qsize rest := by
  simp [qsize]

theorem qsize_children_lt (s : Stmt) : qsize (children s) < stmtSize s := by
  cases s with
  | imp names =>
      simp only [children, qsize, List.map_nil, List.sum_nil, stmtSize]
      omega
  | impFrom m l =>
      simp only [children, qsize, List.map_nil, List.sum_nil, stmtSize]
      omega
  | funcDef n body =>
      simp only [children, qsize, stmtSize, attach_map_stmtSize]
      omega
  | other body =>
      simp only [children, qsize, stmtSize, attach_map_stmtSize]
      omega

/-- Embeds `ast.walk`: breadth-first traversal of all nodes reachable
from the initial queue. -/
def walk : List Stmt → List Stmt
  | [] => []
  | s :: rest => s :: walk (rest ++ children s)
termination_by q => qsize q
decreasing_by
  have h := qsize_children_lt s
  simp only [qsize_append, qsize_cons]
  omega

/-- Accumulates `get_stmt_imports` over a list of statements, in order,
stopping at the first error — the shape of the `deps += ...` loops in
`analyze_toplevel` and `analyze_full`. -/
def scan_stmts (stmts : List Stmt) : Except String (List String) :=
  match stmts with
  | [] => .ok []
  | s :: rest => do
      let d ← get_stmt_imports s
      let ds ← scan_stmts rest
      pure (d ++ ds)

/-- Embeds `analyze_toplevel`: only the statements directly in the
module body are scanned. -/
def analyze_toplevel (module : List Stmt) : Except String (List String) :=
  scan_stmts module

/-- Embeds `analyze_full` applied to the module: every node reached by
`ast.walk` is scanned.  (The Module node itself contributes no imports,
so walking the body queue is equivalent to walking from the module
node.) -/
def analyze_full (module : List Stmt) : Except String (List String) :=
  scan_stmts (walk module)

/-- `analyze_full` applied to a single (function-definition) node, as
`analyze_function` calls it: `ast.walk` starts from that node. -/
def analyze_full_node (root : Stmt) : Except String (List String) :=
  scan_stmts (walk [root])

/-- Embeds `analyze_function`: walk the module, return `analyze_full` of
the first `FunctionDef` whose name matches, and — falling off the end of
the python function — return `None` when no definition matches. -/
def analyze_function (module : List Stmt) (func_name : String) :
    Option (Except String (List String)) :=
  match (walk module).find? (fun s =>
      match s with
      | .funcDef n _ => n == func_name
      | _ => false) with
  | some s => some (analyze_full_node s)
  | none => none

/-- Errors observable at the top level of the scanner script. -/
inductive ScanError where
  | importError (msg : String)
  | typeError
deriving DecidableEq, Repr

/-- Embeds the `__main__` dispatch for the `--function` scope:
`imports += analyze_function(code, args.function)`.  When
`analyze_function` returned `None`, the `+=` raises a python
`TypeError`. -/
def scan_function_scope (module : List Stmt) (func_name : String) :
    Except ScanError (List String) :=
  match analyze_function module func_name with
  | some (.ok ids) => .ok ids
  | some (.error m) => .error (.importError m)
  | none => .error .typeError

/-- C3: a from-import with relative level greater than zero raises
UnsupportedImportError (the ImportError of `get_stmt_imports`)
unconditionally, in every scan scope: directly in `get_stmt_imports`,
under the top-level-only scope, under the whole-program scope, and under
the named-routine scope when the routine body holds the statement. -/
theorem relative_import_always_rejected (module : String) (level : Nat) (h : 0 < level) :
    get_stmt_imports (.impFrom module level) =
      .error ("On " ++ module ++ ", imports from the current module are not supported") ∧
    analyze_toplevel [.impFrom module level] =
      .error ("On " ++ module ++ ", imports from the current module are not supported") ∧
    analyze_full [.impFrom module level] =
      .error ("On " ++ module ++ ", imports from the current module are not supported") ∧
    analyze_function [.funcDef "f" [.impFrom module level]] "f" =
      some (.error ("On " ++ module ++ ", imports from the current module are not supported")) := by
  have hne : level ≠ 0 := Nat.pos_iff_ne_zero.mp h
  refine ⟨?_, ?_, ?_, ?_⟩ <;>
    simp [get_stmt_imports, analyze_toplevel, analyze_full, analyze_function,
      analyze_full_node, scan_stmts, walk, children, List.find?, hne, Except.bind]

/-- Witness for C3 at the concrete input `from ..x import y` (module
"x", level 2). -/
theorem relative_import_always_rejected_witness :
    get_stmt_imports (.impFrom "x" 2) =
      .error ("On " ++ "x" ++ ", imports from the current module are not supported") ∧
    analyze_toplevel [.impFrom "x" 2] =
      .error ("On " ++ "x" ++ ", imports from the current module are not supported") ∧
    analyze_full [.impFrom "x" 2] =
      .error ("On " ++ "x" ++ ", imports from the current module are not supported") ∧
    analyze_function [.funcDef "f" [.impFrom "x" 2]] "f" =
      some (.error ("On " ++ "x" ++ ", imports from the current module are not supported")) :=
  relative_import_always_rejected "x" 2 (by decide)

/-- C4 counterexample: on a module with no matching routine definition,
the named-routine scope does not return an empty identifier result —
`analyze_function` returns `None` and the top-level dispatch raises a
TypeError when it appends `None` to the identifier list. -/
theorem function_scope_not_found_counterexample :
    analyze_function [.imp ["os"]] "f" = none ∧
    scan_function_scope [.imp ["os"]] "f" = .error .typeError ∧
    scan_function_scope [.imp ["os"]] "f" ≠ .ok [] := by
  refine ⟨?_, ?_, ?_⟩ <;>
    simp [analyze_function, scan_function_scope, walk, children, List.find?]

/-- C4 amended: whenever no routine definition matching the given name
is reachable in the module, `analyze_function` returns `None` (python
falls off the end of the function), and the named-routine dispatch in
`__main__` then fails with a TypeError on `imports += None` instead of
yielding an empty identifier list. -/
theorem function_scope_not_found_raises (module : List Stmt) (name : String)
    (h : (walk module).find? (fun s =>
        match s with
        | .funcDef n _ => n == name
        | _ => false) = none) :
    analyze_function module name = none ∧
    scan_function_scope module name = .error .typeError := by
  simp [analyze_function, scan_function_scope, h]

/-- Witness for the amended C4 at a concrete module holding one import
and no routine definition. -/
theorem function_scope_not_found_raises_witness :
    analyze_function [.imp ["os"]] "g" = none ∧
    scan_function_scope [.imp ["os"]] "g" = .error .typeError :=
  function_scope_not_found_raises [.imp ["os"]] "g"
    (by simp [walk, children, List.find?])

end PonchoScan

namespace PonchoResolve

/-- Outcome of one `choose_dep`/`search_pkg` call: which constraint
string was added to which output set, or nothing at all (builtin
identifier, or optional lookup that found nothing). -/
inductive DepChoice where
  | conda (constraint : String)
  | pip (constraint : String)
  | skipped
deriving DecidableEq, Repr

/-- Errors of the resolver; `unresolvedDependency pkg` embeds the
ImportError raised by `choose_dep` when a required package cannot be
matched. -/
inductive ResolveError where
  | unresolvedDependency (pkg : String)
deriving DecidableEq, Repr

/-- Embeds `choose_dep` (poncho_package_create, scanner part): scan the
installed system-channel constraint strings for one starting with the
package name followed by the version separator, then the pip-only
strings; the first match is added to the corresponding output set; when
required and unmatched, raise ImportError. -/
def choose_dep (conda_env pip_env : List String) (pkg : String) (required : Bool) :
    Except ResolveError DepChoice :=
  match conda_env.find? (fun a => a.startsWith (pkg ++ "=")) with
  | some a => .ok (.conda a)
  | none =>
      match pip_env.find? (fun a => a.startsWith (pkg ++ "=")) with
      | some a => .ok (.pip a)
      | none =>
          if required then .error (.unresolvedDependency pkg) else .ok .skipped

/-- Embeds `search_pkg`.  `builtins` is `sys.builtin_module_names`;
`overrides` is the user-supplied identifier-to-package map; `pkg_map`
is the file-path-to-owning-package index `PKG_MAP`; `file_of` gives the
source-file location `importlib.import_module(pkg).__file__` of a
module in the reference environment.  Order: builtin, override, literal
package name, file-ownership lookup (falling back to the literal
name). -/
def search_pkg (overrides : List (String × String)) (builtins : List String)
    (pkg_map : List (String × String)) (file_of : String → String)
    (conda_env pip_env : List String) (pkg : String) : Except ResolveError DepChoice :=
  if pkg ∈ builtins then .ok .skipped
  else
    match overrides.lookup pkg with
    | some name => choose_dep conda_env pip_env name true
    | none =>
        match choose_dep conda_env pip_env pkg true with
        | .ok r => .ok r
        | .error _ =>
            let lookup := (pkg_map.lookup (file_of pkg)).getD pkg
            choose_dep conda_env pip_env lookup true

/-- C5: for a non-builtin identifier present in the override map,
`search_pkg` resolves exactly as `choose_dep` on the override package
name — whatever the installed listings and the file-ownership index
hold, so in particular even when a package literally named the
identifier exists or the file index owns its source file.  Resolution
is a pure function of the listings and the override map, hence
deterministic. -/
theorem override_takes_precedence (overrides : List (String × String))
    (builtins : List String) (pkg_map : List (String × String))
    (file_of : String → String) (conda_env pip_env : List String)
    (pkg name : String)
    (hb : pkg ∉ builtins) (ho : overrides.lookup pkg = some name) :
    search_pkg overrides builtins pkg_map file_of conda_env pip_env pkg =
      choose_dep conda_env pip_env name true := by
  simp [search_pkg, hb, ho]

/-- Witness for C5: identifier "cv2" is overridden to package "opencv"
although the listings also hold a package literally named "cv2" and the
file index owns its source file. -/
theorem override_takes_precedence_witness :
    search_pkg [("cv2", "opencv")] ["sys"] [("/lib/cv2.py", "cv2file")]
      (fun _ => "/lib/cv2.py") ["cv2=1.0", "opencv=4.5"] [] "cv2" =
    choose_dep ["cv2=1.0", "opencv=4.5"] [] "opencv" true :=
  override_takes_precedence [("cv2", "opencv")] ["sys"] [("/lib/cv2.py", "cv2file")]
    (fun _ => "/lib/cv2.py") ["cv2=1.0", "opencv=4.5"] [] "cv2" "opencv"
    (by decide) (by decide)

end PonchoResolve

namespace PonchoCreate

/-- True of the characters the version-constraint suffix starts with:
the python code strips a dependency string with
`re.sub("[!~=<>].*$", "", dep)`. -/
def version_char (c : Char) : Bool :=
  c == '!' || c == '~' || c == '=' || c == '<' || c == '>'

/-- Embeds `re.sub("[!~=<>].*$", "", dep)`: everything from the first
version character on is removed.  (Dependency strings contain no
newline, so the regex always matches at the first such character.) -/
def only_name (dep : String) : String :=
  .mk (dep.data.takeWhile (fun c => !version_char c))

/-- The `conda` section of a poncho specification file. -/
structure CondaSection where
  channels : Option (List String)
  packages : Option (List String)
deriving DecidableEq, Repr

/-- The parts of a poncho specification file that `create_conda_spec`
reads. -/
structure PonchoSpecFile where
  conda : Option CondaSection
  pip : Option (List String)
deriving DecidableEq, Repr

/-- The specification value `create_conda_spec` returns.  In the python
dictionary the pip constraint list is appended into `dependencies` as a
nested `{"pip": [...]}` entry; it is kept as a separate field here, and
`dependencies` holds only the plain constraint strings. -/
structure CondaSpec where
  channels : List String
  dependencies : List String
  pip : List String
  pip_local : List (String × String)
deriving DecidableEq, Repr

/-- The declared system-channel dependencies of a specification file. -/
def declared_conda_packages (p : PonchoSpecFile) : List String :=
  match p.conda with
  | some c => c.packages.getD []
  | none => []

/-- The declared pip-only dependencies of a specification file. -/
def declared_pip_packages (p : PonchoSpecFile) : List String :=
  p.pip.getD []

/-- Embeds `create_conda_spec`.  `local_pip_pkgs` is the editable-pip
index from `_find_local_pip`, a name-to-location map.  The python sets
are modelled by deduplicated lists; removing every member whose
version-stripped name is an editable package while iterating a copy is
modelled by `filter`.  When the file has no `conda` key,
`conda_spec["dependencies"]` is still the initial `set()` when
`.append` is called on it, and python raises AttributeError; that path
is the `.error` case. -/
def create_conda_spec (poncho_spec : PonchoSpecFile)
    (local_pip_pkgs : List (String × String)) : Except String CondaSpec :=
  match poncho_spec.conda with
  | none => .error "AttributeError: set object has no attribute append"
  | some c =>
      let channels := c.channels.getD ["conda-forge", "defaults"]
      let deps0 := (c.packages.getD []).dedup
      let conda_local := (deps0.filter
        (fun dep => (local_pip_pkgs.lookup (only_name dep)).isSome)).map only_name
      let dependencies := deps0.filter
        (fun dep => (local_pip_pkgs.lookup (only_name dep)).isNone)
      let pip0 := (poncho_spec.pip.getD []).dedup
      let pip_local_names := (pip0.filter
        (fun dep => (local_pip_pkgs.lookup (only_name dep)).isSome)).map only_name
      let pip_pkgs := pip0.filter
        (fun dep => (local_pip_pkgs.lookup (only_name dep)).isNone)
      let local_reqs := (conda_local ++ pip_local_names).dedup
      .ok
        { channels := channels
          dependencies := dependencies
          pip := pip_pkgs
          pip_local := local_reqs.filterMap
            (fun n => (local_pip_pkgs.lookup n).map (fun p => (n, p))) }

theorem only_name_idem (dep : String) : only_name (only_name dep) = only_name dep := by
  simp only [only_name, List.takeWhile_idem]

theorem mem_map_fst_pip_local (L : List (String × String)) (ns : List String) (n : String) :
    n ∈ (ns.filterMap (fun m => (L.lookup m).map (fun p => (m, p)))).map Prod.fst ↔
      n ∈ ns ∧ (L.lookup n).isSome := by
  constructor
  · intro h
    obtain ⟨pair, hpair, hfst⟩ := List.mem_map.mp h
    obtain ⟨m, hm, hfm⟩ := List.mem_filterMap.mp hpair
    obtain ⟨v, hv, hpv⟩ := Option.map_eq_some'.mp hfm
    subst hpv
    subst hfst
    exact ⟨hm, by simp [hv]⟩
  · rintro ⟨hn, hs⟩
    obtain ⟨v, hv⟩ := Option.isSome_iff_exists.mp hs
    exact List.mem_map.mpr ⟨(n, v), List.mem_filterMap.mpr ⟨n, hn, by simp [hv]⟩, rfl⟩

/-- C6: in every specification `create_conda_spec` actually produces,
any declared dependency — system-channel or pip-only — whose
version-stripped name is an editable-pip package ends up (by that
stripped name) in `pip_local` and is removed from its original set, and
no name in `pip_local` also occurs in `dependencies` or `pip`. -/
theorem pip_local_reclassification (poncho_spec : PonchoSpecFile)
    (local_pip_pkgs : List (String × String)) (r : CondaSpec)
    (hr : create_conda_spec poncho_spec local_pip_pkgs = .ok r) :
    (∀ dep,
      (dep ∈ declared_conda_packages poncho_spec ∨ dep ∈ declared_pip_packages poncho_spec) →
      (local_pip_pkgs.lookup (only_name dep)).isSome →
        only_name dep ∈ r.pip_local.map Prod.fst ∧
        dep ∉ r.dependencies ∧ dep ∉ r.pip) ∧
    (∀ n, n ∈ r.pip_local.map Prod.fst → n ∉ r.dependencies ∧ n ∉ r.pip) := by
  match hc : poncho_spec.conda with
  | none => simp [create_conda_spec, hc] at hr
  | some c =>
    simp only [create_conda_spec, hc, Except.ok.injEq] at hr
    subst hr
    constructor
    · intro dep hdep hsome
      refine ⟨?_, ?_, ?_⟩
      · rw [mem_map_fst_pip_local]
        refine ⟨List.mem_dedup.mpr ?_, ?_⟩
        · rcases hdep with hdep | hdep
          · refine List.mem_append.mpr (Or.inl ?_)
            refine List.mem_map.mpr ⟨dep, List.mem_filter.mpr ⟨?_, by simp [hsome]⟩, rfl⟩
            exact List.mem_dedup.mpr (by simpa [declared_conda_packages, hc] using hdep)
          · refine List.mem_append.mpr (Or.inr ?_)
            refine List.mem_map.mpr ⟨dep, List.mem_filter.mpr ⟨?_, by simp [hsome]⟩, rfl⟩
            exact List.mem_dedup.mpr (by simpa [declared_pip_packages] using hdep)
        · exact hsome
      · intro hmem
        have := (List.mem_filter.mp hmem).2
        simp only [Option.isNone_iff_eq_none] at this
        rw [this] at hsome
        simp at hsome
      · intro hmem
        have := (List.mem_filter.mp hmem).2
        simp only [Option.isNone_iff_eq_none] at this
        rw [this] at hsome
        simp at hsome
    · intro n hn
      rw [mem_map_fst_pip_local] at hn
      obtain ⟨hreq, hs⟩ := hn
      have hfix : only_name n = n := by
        rcases List.mem_append.mp (List.mem_dedup.mp hreq) with h | h
        · obtain ⟨dep, _, hd⟩ := List.mem_map.mp h
          rw [← hd, only_name_idem]
        · obtain ⟨dep, _, hd⟩ := List.mem_map.mp h
          rw [← hd, only_name_idem]
      constructor
      · intro hmem
        have := (List.mem_filter.mp hmem).2
        rw [hfix] at this
        simp only [Option.isNone_iff_eq_none] at this
        rw [this] at hs
        simp at hs
      · intro hmem
        have := (List.mem_filter.mp hmem).2
        rw [hfix] at this
        simp only [Option.isNone_iff_eq_none] at this
        rw [this] at hs
        simp at hs

/-- Witness for C6 on a concrete specification: "foo=1.0" (declared
system-channel) and "baz>=2" and "foo" (declared pip) are editable-pip
packages and move into `pip_local`; "bar" stays. -/
theorem pip_local_reclassification_witness :
    (∀ dep,
      (dep ∈ declared_conda_packages
          ⟨some ⟨none, some ["foo=1.0", "bar"]⟩, some ["baz>=2", "foo"]⟩ ∨
       dep ∈ declared_pip_packages
          ⟨some ⟨none, some ["foo=1.0", "bar"]⟩, some ["baz>=2", "foo"]⟩) →
      (([("foo", "/src/foo"), ("baz", "/src/baz")] :
          List (String × String)).lookup (only_name dep)).isSome →
        only_name dep ∈ (CondaSpec.mk ["conda-forge", "defaults"] ["bar"] []
            [("baz", "/src/baz"), ("foo", "/src/foo")]).pip_local.map Prod.fst ∧
        dep ∉ (CondaSpec.mk ["conda-forge", "defaults"] ["bar"] []
            [("baz", "/src/baz"), ("foo", "/src/foo")]).dependencies ∧
        dep ∉ (CondaSpec.mk ["conda-forge", "defaults"] ["bar"] []
            [("baz", "/src/baz"), ("foo", "/src/foo")]).pip) ∧
    (∀ n, n ∈ (CondaSpec.mk ["conda-forge", "defaults"] ["bar"] []
            [("baz", "/src/baz"), ("foo", "/src/foo")]).pip_local.map Prod.fst →
        n ∉ (CondaSpec.mk ["conda-forge", "defaults"] ["bar"] []
            [("baz", "/src/baz"), ("foo", "/src/foo")]).dependencies ∧
        n ∉ (CondaSpec.mk ["conda-forge", "defaults"] ["bar"] []
            [("baz", "/src/baz"), ("foo", "/src/foo")]).pip) :=
  pip_local_reclassification
    ⟨some ⟨none, some ["foo=1.0", "bar"]⟩, some ["baz>=2", "foo"]⟩
    [("foo", "/src/foo"), ("baz", "/src/baz")]
    (CondaSpec.mk ["conda-forge", "defaults"] ["bar"] []
      [("baz", "/src/baz"), ("foo", "/src/foo")])
    (by rfl)

/-- Filesystem and subprocess effects the fetchers `git_data` and
`http_data` can perform, in program order.  `ensure_poncho_dir` is the
guarded `os.mkdir` of the `poncho` directory, `append_set_env` appends
one line to the activation-hook script `poncho/set_env`, and
`remove_file` is the effect a deletion of a downloaded file would
be — no code path of the fetchers emits it. -/
inductive Effect where
  | curl (url out_file : String)
  | mkdir (path : String)
  | untar_gz (archive dest : String)
  | untar (archive dest : String)
  | gunzip (file : String)
  | git_clone (remote dest : String)
  | ensure_poncho_dir (path : String)
  | append_set_env (line : String)
  | remove_file (path : String)
deriving DecidableEq, Repr

/-- One entry of the `http` section of a specification file; each field
is absent when the corresponding key is missing. -/
structure HttpEntry where
  file_type : Option String
  compression : Option String
  url : Option String
deriving DecidableEq, Repr

/-- One entry of the `git` section of a specification file. -/
structure GitEntry where
  remote : Option String
  ref : Option String
deriving DecidableEq, Repr

/-- Embeds the body of the per-entry loop of `git_data`: with no
`remote` key nothing at all happens; otherwise clone under the
environment root at the logical name and append the activation-hook
line.  (The `ref` key is read into a variable but never used.) -/
def git_entry_effects (out_dir name : String) (e : GitEntry) : List Effect :=
  match e.remote with
  | none => []
  | some remote =>
      let path := out_dir ++ "/" ++ name
      [.git_clone remote path,
       .ensure_poncho_dir (out_dir ++ "/poncho"),
       .append_set_env ("export " ++ name ++ "=$1/" ++ name ++ "\n")]

/-- Embeds `git_data`: the entries of the `git` section in declared
order. -/
def git_data (spec_git : List (String × GitEntry)) (out_dir : String) : List Effect :=
  spec_git.flatMap (fun p => git_entry_effects out_dir p.1 p.2)

/-- Embeds the body of the per-entry loop of `http_data`: with no `url`
key nothing at all happens; otherwise download and dispatch on the
(type, compression) pair, then append the activation-hook line. -/
def http_entry_effects (out_dir filename : String) (e : HttpEntry) : List Effect :=
  match e.url with
  | none => []
  | some url =>
      let path := out_dir ++ "/" ++ filename
      let fetch :=
        if e.file_type == some "tar" && e.compression == some "gzip" then
          [.curl url (path ++ ".tar.gz"), .mkdir path,
           .untar_gz (path ++ ".tar.gz") path]
        else if e.file_type == some "tar" then
          [.curl url (path ++ ".tar"), .mkdir path,
           .untar (path ++ ".tar") path]
        else if e.compression == some "gzip" then
          [.curl url (path ++ ".gz"), .gunzip (path ++ ".gz")]
        else
          [.curl url path]
      fetch ++ [.ensure_poncho_dir (out_dir ++ "/poncho"),
                .append_set_env ("export " ++ filename ++ "=$1/" ++ filename ++ "\n")]

/-- Embeds `http_data`: the entries of the `http` section in declared
order. -/
def http_data (spec_http : List (String × HttpEntry)) (out_dir : String) : List Effect :=
  spec_http.flatMap (fun p => http_entry_effects out_dir p.1 p.2)

/-- C7 counterexample: a concrete tar+gzip entry.  The fetcher
downloads the archive next to the target directory and extracts it into
the directory named after the logical name, but its effect trace holds
no removal of the raw downloaded archive file — the archive is not
discarded. -/
theorem http_tar_gzip_keeps_archive_counterexample :
    Effect.curl "u" "/env/data.tar.gz" ∈
      http_entry_effects "/env" "data" ⟨some "tar", some "gzip", some "u"⟩ ∧
    Effect.untar_gz "/env/data.tar.gz" "/env/data" ∈
      http_entry_effects "/env" "data" ⟨some "tar", some "gzip", some "u"⟩ ∧
    Effect.remove_file "/env/data.tar.gz" ∉
      http_entry_effects "/env" "data" ⟨some "tar", some "gzip", some "u"⟩ := by
  refine ⟨?_, ?_, ?_⟩ <;> decide

/-- C7 amended: for every http entry with type `tar`, compression
`gzip` and a url, the fetcher downloads the url to
`<root>/<name>.tar.gz`, creates the directory `<root>/<name>`, extracts
the archive into it and appends the activation-hook line — and the raw
downloaded archive file is left in place: no effect of the trace
removes any file. -/
theorem http_tar_gzip_effects (out_dir filename url : String) (e : HttpEntry)
    (ht : e.file_type = some "tar") (hc : e.compression = some "gzip")
    (hu : e.url = some url) :
    http_entry_effects out_dir filename e =
      [.curl url (out_dir ++ "/" ++ filename ++ ".tar.gz"),
       .mkdir (out_dir ++ "/" ++ filename),
       .untar_gz (out_dir ++ "/" ++ filename ++ ".tar.gz") (out_dir ++ "/" ++ filename),
       .ensure_poncho_dir (out_dir ++ "/poncho"),
       .append_set_env ("export " ++ filename ++ "=$1/" ++ filename ++ "\n")] ∧
    ∀ p, Effect.remove_file p ∉ http_entry_effects out_dir filename e := by
  have he : http_entry_effects out_dir filename e =
      [.curl url (out_dir ++ "/" ++ filename ++ ".tar.gz"),
       .mkdir (out_dir ++ "/" ++ filename),
       .untar_gz (out_dir ++ "/" ++ filename ++ ".tar.gz") (out_dir ++ "/" ++ filename),
       .ensure_poncho_dir (out_dir ++ "/poncho"),
       .append_set_env ("export " ++ filename ++ "=$1/" ++ filename ++ "\n")] := by
    simp [http_entry_effects, ht, hc, hu]
  refine ⟨he, ?_⟩
  intro p
  rw [he]
  simp

/-- Witness for the amended C7 at the concrete entry of the
counterexample. -/
theorem http_tar_gzip_effects_witness :
    http_entry_effects "/env" "data" ⟨some "tar", some "gzip", some "u"⟩ =
      [.curl "u" ("/env" ++ "/" ++ "data" ++ ".tar.gz"),
       .mkdir ("/env" ++ "/" ++ "data"),
       .untar_gz ("/env" ++ "/" ++ "data" ++ ".tar.gz") ("/env" ++ "/" ++ "data"),
       .ensure_poncho_dir ("/env" ++ "/poncho"),
       .append_set_env ("export " ++ "data" ++ "=$1/" ++ "data" ++ "\n")] ∧
    ∀ p, Effect.remove_file p ∉
      http_entry_effects "/env" "data" ⟨some "tar", some "gzip", some "u"⟩ :=
  http_tar_gzip_effects "/env" "data" "u" ⟨some "tar", some "gzip", some "u"⟩ rfl rfl rfl

/-- C9: a git entry with no `remote` key and an http entry with no
`url` key are skipped silently — the per-entry processing performs no
fetch, no filesystem effect and no hook append, and raises nothing (the
effect trace is empty, so no `subprocess.check_call` runs that could
fail). -/
theorem missing_remote_or_url_skipped (out_dir gname hname : String)
    (ge : GitEntry) (he : HttpEntry)
    (hg : ge.remote = none) (hh : he.url = none) :
    git_entry_effects out_dir gname ge = [] ∧
    http_entry_effects out_dir hname he = [] := by
  constructor
  · simp [git_entry_effects, hg]
  · simp [http_entry_effects, hh]

/-- Witness for C9 at concrete entries: a git entry with only a `ref`
key, an http entry with only type and compression keys. -/
theorem missing_remote_or_url_skipped_witness :
    git_entry_effects "/env" "repo" ⟨none, some "main"⟩ = [] ∧
    http_entry_effects "/env" "data" ⟨some "tar", some "gzip", none⟩ = [] :=
  missing_remote_or_url_skipped "/env" "repo" "data"
    ⟨none, some "main"⟩ ⟨some "tar", some "gzip", none⟩ rfl rfl

end PonchoCreate

namespace PonchoRun

/-- State of a shared unpack target directory: whether the sentinel file
`.poncho_package_run_expanded` is present, and whether the environment
in it has been fully extracted and relocated (`tar -xf` followed by a
successful `conda-unpack`). -/
structure EnvState where
  marker : Bool
  relocated : Bool
deriving DecidableEq, Repr

/-- Result of one run of the generated UNTAR_SCRIPT: its exit status,
whether this run performed the extract+relocate sequence to completion,
and the directory state it leaves behind. -/
structure UntarResult where
  status : Nat
  extracted : Bool
  state : EnvState
deriving DecidableEq, Repr

/-- Embeds UNTAR_SCRIPT (the here-document of `poncho_package_run`):
when the sentinel is present, nothing is done and the script exits 0;
otherwise `tar -xf` runs (oracle `tar_ok`), on its failure the script
exits 1 before relocation; then `bin/conda-unpack` runs (oracle
`unpack_ok`), on its failure the script exits 1; only after both
succeeded is the sentinel written, and the script exits 0. -/
def untar_script (s : EnvState) (tar_ok unpack_ok : Bool) : UntarResult :=
  if s.marker then
    { status := 0, extracted := false, state := s }
  else if !tar_ok then
    { status := 1, extracted := false, state := s }
  else if !unpack_ok then
    { status := 1, extracted := false, state := s }
  else
    { status := 0, extracted := true, state := { marker := true, relocated := true } }

/-- C2: starting without the sentinel, the sentinel is present
afterwards exactly when both extraction and relocation succeeded, and
when either of them fails the script exits 1 with the sentinel still
absent and the step aborted. -/
theorem marker_only_after_success (s : EnvState) (tar_ok unpack_ok : Bool)
    (hm : s.marker = false) :
    ((untar_script s tar_ok unpack_ok).state.marker = true ↔
        tar_ok = true ∧ unpack_ok = true) ∧
    (¬(tar_ok = true ∧ unpack_ok = true) →
        untar_script s tar_ok unpack_ok =
          { status := 1, extracted := false, state := s }) := by
  cases tar_ok <;> cases unpack_ok <;> simp [untar_script, hm]

/-- Witness for C2: extraction succeeds but relocation fails — the
sentinel stays absent and the script exits 1. -/
theorem marker_only_after_success_witness :
    ((untar_script ⟨false, false⟩ true false).state.marker = true ↔
        true = true ∧ false = true) ∧
    (¬(true = true ∧ false = true) →
        untar_script ⟨false, false⟩ true false =
          { status := 1, extracted := false, state := ⟨false, false⟩ }) :=
  marker_only_after_success ⟨false, false⟩ true false rfl

/-- N runner invocations against the same target directory with a valid
archive (`tar -xf` and `conda-unpack` both succeed whenever run).  The
exclusive advisory `flock` on the target directory serialises the
UNTAR_SCRIPT critical sections, so the concurrent execution is modelled
as their sequential composition in an arbitrary arrival order; each
list entry is one invocation: whether it performed the extract+relocate
sequence, and the directory state it observed when leaving its critical
section. -/
def run_invocations : Nat → EnvState → List (Bool × EnvState)
  | 0, _ => []
  | n + 1, s =>
      let r := untar_script s true true
      (r.extracted, r.state) :: run_invocations n r.state

theorem run_invocations_done (n : Nat) :
    run_invocations n ⟨true, true⟩ =
      List.replicate n (false, ⟨true, true⟩) := by
  induction n with
  | zero => rfl
  | succ m ih => simp [run_invocations, untar_script, ih, List.replicate_succ]

/-- C1: for every N ≥ 1 serialised invocations against a fresh target
directory (no sentinel, nothing relocated) with a valid archive,
exactly one invocation performs the extract+relocate sequence, and
every invocation leaves its critical section seeing the sentinel
present and a fully relocated environment — so every command then runs
against a fully relocated environment. -/
theorem exactly_one_extraction (n : Nat) (hn : 0 < n) :
    ((run_invocations n ⟨false, false⟩).map Prod.fst).count true = 1 ∧
    ∀ r ∈ run_invocations n ⟨false, false⟩,
      r.2.marker = true ∧ r.2.relocated = true := by
  obtain ⟨m, rfl⟩ : ∃ m, n = m + 1 := ⟨n - 1, by omega⟩
  have hstep : run_invocations (m + 1) ⟨false, false⟩ =
      (true, ⟨true, true⟩) :: List.replicate m (false, (⟨true, true⟩ : EnvState)) := by
    simp [run_invocations, untar_script, run_invocations_done]
  constructor
  · rw [hstep]
    simp [List.count_replicate]
  · intro r hr
    rw [hstep] at hr
    rcases List.mem_cons.mp hr with h | h
    · subst h; exact ⟨rfl, rfl⟩
    · have := List.eq_of_mem_replicate h
      subst this; exact ⟨rfl, rfl⟩

/-- Witness for C1 at N = 3 concurrent invocations. -/
theorem exactly_one_extraction_witness :
    ((run_invocations 3 ⟨false, false⟩).map Prod.fst).count true = 1 ∧
    ∀ r ∈ run_invocations 3 ⟨false, false⟩,
      r.2.marker = true ∧ r.2.relocated = true :=
  exactly_one_extraction 3 (by decide)

end PonchoRun

namespace PonchoRun

/-- The outcome oracles of one runner invocation: which checks pass and
what the executed command exits with. -/
structure RunnerInput where
  env_given : Bool
  cmd_given : Bool
  env_is_dir : Bool
  unpack_to_is_file : Bool
  lock_acquired : Bool
  marker_present : Bool
  tar_ok : Bool
  unpack_ok : Bool
  activate_ok : Bool
  cmd_exit : Nat
deriving DecidableEq, Repr

/-- Embeds the control flow of `poncho_package_run` top to bottom:
`parse_arguments` exits 1 when `--environment` or the command line is
missing; an existing regular file as resolved unpack target exits 1;
when the environment is not a directory, `flock -E 222 -w $LOCK_WAIT`
runs UNTAR_SCRIPT — a lock timeout yields flock status 222 and any
non-zero script status makes the runner exit 1; a failing
`source bin/activate` exits 1; otherwise the runner exits with the
executed command status. -/
def runner_exit (i : RunnerInput) : Nat :=
  if !i.env_given || !i.cmd_given then 1
  else if i.unpack_to_is_file then 1
  else
    let unpack_status :=
      if i.env_is_dir then 0
      else if !i.lock_acquired then 222
      else (untar_script ⟨i.marker_present, i.marker_present⟩ i.tar_ok i.unpack_ok).status
    if unpack_status ≠ 0 then 1
    else if !i.activate_ok then 1
    else i.cmd_exit

/-- All checks pass and the caller-supplied command runs. -/
def runner_success (i : RunnerInput) : Bool :=
  i.env_given && i.cmd_given && !i.unpack_to_is_file &&
    (i.env_is_dir ||
      (i.lock_acquired &&
        (untar_script ⟨i.marker_present, i.marker_present⟩ i.tar_ok i.unpack_ok).status == 0)) &&
    i.activate_ok

/-- A lock timeout: arguments fine, environment is an archive, the lock
never becomes free. -/
def lock_timeout_input : RunnerInput :=
  { env_given := true, cmd_given := true, env_is_dir := false,
    unpack_to_is_file := false, lock_acquired := false, marker_present := false,
    tar_ok := true, unpack_ok := true, activate_ok := true, cmd_exit := 0 }

/-- An extraction failure: the lock is held, the sentinel is absent and
`tar -xf` fails. -/
def extract_fail_input : RunnerInput :=
  { env_given := true, cmd_given := true, env_is_dir := false,
    unpack_to_is_file := false, lock_acquired := true, marker_present := false,
    tar_ok := false, unpack_ok := true, activate_ok := true, cmd_exit := 0 }

/-- A relocation failure: extraction succeeds, `conda-unpack` fails. -/
def relocate_fail_input : RunnerInput :=
  { env_given := true, cmd_given := true, env_is_dir := false,
    unpack_to_is_file := false, lock_acquired := true, marker_present := false,
    tar_ok := true, unpack_ok := false, activate_ok := true, cmd_exit := 0 }

/-- An activation failure after a completed unpack. -/
def activate_fail_input : RunnerInput :=
  { env_given := true, cmd_given := true, env_is_dir := false,
    unpack_to_is_file := false, lock_acquired := true, marker_present := true,
    tar_ok := true, unpack_ok := true, activate_ok := false, cmd_exit := 0 }

/-- Bad arguments: no `--environment` option. -/
def bad_args_input : RunnerInput :=
  { env_given := false, cmd_given := true, env_is_dir := false,
    unpack_to_is_file := false, lock_acquired := true, marker_present := false,
    tar_ok := true, unpack_ok := true, activate_ok := true, cmd_exit := 0 }

/-- C8 counterexample: the five failure classes do not get distinct
exit codes — every one of them terminates the runner with exit code 1;
in particular the lock-timeout and extraction-failure classes share it
(the distinct 222 from flock is collapsed to 1 by the outer script). -/
theorem failure_exit_codes_all_one_counterexample :
    runner_exit bad_args_input = 1 ∧
    runner_exit lock_timeout_input = 1 ∧
    runner_exit extract_fail_input = 1 ∧
    runner_exit relocate_fail_input = 1 ∧
    runner_exit activate_fail_input = 1 ∧
    runner_exit lock_timeout_input = runner_exit extract_fail_input := by
  refine ⟨?_, ?_, ?_, ?_, ?_, ?_⟩ <;> decide

/-- C8 amended: the runner exits with the executed command status on
success, and with the fixed non-zero code 1 on every earlier failure —
bad arguments, lock timeout, extraction failure, relocation failure and
activation failure all share the single exit code 1 instead of
pairwise-distinct codes. -/
theorem runner_exit_characterisation (i : RunnerInput) :
    runner_exit i = if runner_success i then i.cmd_exit else 1 := by
  unfold runner_exit runner_success
  cases he : i.env_given <;> cases hc : i.cmd_given <;>
    cases hf : i.unpack_to_is_file <;> cases hd : i.env_is_dir <;>
    cases hl : i.lock_acquired <;> cases ha : i.activate_ok <;>
    simp_all

end PonchoRun

namespace PonchoRun

/-- The process environment handed to `source "$UNPACK_TO/bin/activate"`:
the line `unset PYTHONPATH` runs unconditionally right before it on
every invocation that reaches the activation phase, so the inherited
environment loses its `PYTHONPATH` binding.  The environment is an
association list of variable names and values. -/
def env_at_activation (inherited : List (String × String)) : List (String × String) :=
  inherited.filter (fun p => p.1 != "PYTHONPATH")

/-- C10: whatever the caller passes down, the environment in which
activation — and hence the executed command — starts has no
`PYTHONPATH` binding: the caller-inherited `PYTHONPATH` is never
observed past the `unset`. -/
theorem pythonpath_always_unset (inherited : List (String × String)) :
    (env_at_activation inherited).lookup "PYTHONPATH" = none := by
  induction inherited with
  | nil => rfl
  | cons p rest ih =>
      by_cases h : p.1 = "PYTHONPATH"
      · simpa [env_at_activation, h] using ih
      · have hb : ("PYTHONPATH" == p.1) = false := by
          simp [BEq.beq]
          exact fun hp => h hp.symm
        simpa [env_at_activation, h, List.lookup, hb] using ih

end PonchoRun
